import Mathlib

/-!
Shallow embedding of `src/python/nemotron_daemon.py`.

The program is a command-line daemon with three modes:
  - `check_gpu`  : probe the accelerator and emit one JSON object;
  - `download_model` : fetch a model via the hub library, emitting status lines;
  - `run_server` : read newline-delimited JSON commands from stdin and emit
    newline-delimited JSON responses to stdout.

External collaborators (the JSON parser of the standard library, the
filesystem, the torch/NeMo model, the hub download routine) are modelled as
oracle functions carried in environment structures; every control-flow
decision made by the script itself is translated faithfully from the source.
Emitted output is modelled as a list of JSON values, in emission order.
-/

/-- A JSON value, as produced by the standard JSON parser. JSON numbers are
modelled as integers (no claim depends on non-integral numbers). -/
inductive Json where
  | null
  | bool (b : Bool)
  | num (n : Int)
  | str (s : String)
  | arr (elems : List Json)
  | obj (fields : List (String × Json))

/-- Lookup of a key in a parsed JSON object. The Python JSON parser builds a
dict, where a duplicated key keeps its last occurrence, so the lookup returns
the value of the last matching pair. -/
def lookupLast (fields : List (String × Json)) (k : String) : Option Json :=
  match fields with
  | [] => none
  | (k1, v) :: rest =>
    match lookupLast rest k with
    | some w => some w
    | none => if k1 = k then some v else none

/-- Field access on an emitted JSON object (`none` on non-objects). -/
def Json.getKey : Json → String → Option Json
  | Json.obj fields, k => lookupLast fields k
  | _, _ => none

/-- Whether an emitted JSON object carries the given key. -/
def Json.hasKey (j : Json) (k : String) : Bool :=
  (Json.getKey j k).isSome

/-- Serialization of a Python value that may be `None`: `json.dumps` renders
`None` as JSON `null`. -/
def optToJson : Option Json → Json
  | none => Json.null
  | some j => j

/-- Python `line.strip()` is empty exactly when every character of the line is
whitespace. -/
def isPyWhite (c : Char) : Bool :=
  c = ' ' || c = '\t' || c = '\n' || c = '\r' || c = '\x0b' || c = '\x0c'

/-- Whether `line.strip()` is falsy, i.e. the line is blank or
whitespace-only. -/
def strBlank (s : String) : Bool :=
  s.data.all isPyWhite

/-- Message of the `TypeError` raised by `os.path.exists` when the argument is
`None` (or another non-path value such as a list or dict). -/
def osPathTypeErr : String :=
  "stat: path should be string, bytes, os.PathLike or integer, not NoneType"

/-- Message of the `AttributeError` raised by `req.get` when `json.loads`
returned a non-dict value. -/
def attrErrMsg : String :=
  "object has no attribute get"

/-- The external collaborators of server mode: the JSON parser applied to one
line, `os.path.exists` on a string path, `os.path.exists` on an integer file
descriptor, and the transcription model (which may raise, modelled as
`Except`). -/
structure Env where
  parseJson : String → Except String Json
  existsPath : String → Bool
  existsFd : Int → Bool
  transcribe : Option Json → Except String String

/-- `os.path.exists(file_path)` where `file_path` came from `req.get`:
a string path or an integer (or bool, an int subclass) is checked against the
filesystem; `None` (absent key or JSON `null`) and container values raise
`TypeError`, which propagates out of `os.path.exists`. -/
def osPathExists (env : Env) : Option Json → Except String Bool
  | some (Json.str s) => Except.ok (env.existsPath s)
  | some (Json.num n) => Except.ok (env.existsFd n)
  | some (Json.bool b) => Except.ok (env.existsFd (if b then 1 else 0))
  | _ => Except.error osPathTypeErr

/-- Response `{"type": "error", "message": m}` printed by the per-line
exception handler (and by the failed-import branch). -/
def errResp (m : String) : Json :=
  Json.obj [("type", Json.str "error"), ("message", Json.str m)]

/-- Response `{"type": "error", "message": "File not found", "id": rid}`
printed when the transcribe path does not exist. -/
def fnfResp (rid : Option Json) : Json :=
  Json.obj [("type", Json.str "error"), ("message", Json.str "File not found"),
            ("id", optToJson rid)]

/-- Response `{"type": "result", "text": t, "file_path": fp, "id": rid}`. -/
def resultResp (text : String) (fp rid : Option Json) : Json :=
  Json.obj [("type", Json.str "result"), ("text", Json.str text),
            ("file_path", optToJson fp), ("id", optToJson rid)]

/-- Response `{"type": "pong"}`. -/
def pongResp : Json :=
  Json.obj [("type", Json.str "pong")]

/-- Response `{"type": "status", "status": "ready", "device": dev}`. -/
def readyResp (dev : String) : Json :=
  Json.obj [("type", Json.str "status"), ("status", Json.str "ready"),
            ("device", Json.str dev)]

/-- Response `{"type": "fatal", "message": m}`. -/
def fatalResp (m : String) : Json :=
  Json.obj [("type", Json.str "fatal"), ("message", Json.str m)]

/-- Response printed when the NeMo/Torch import fails at server startup. -/
def importErrResp : Json :=
  Json.obj [("type", Json.str "error"), ("message", Json.str "NeMo/Torch not installed")]

/-- The transcribe branch of the dispatch: look up `file_path` and `id`,
check existence (which may raise on a non-path value), emit the
file-not-found error carrying the id, or invoke the model and emit the
result. Returns the emitted responses and the break flag. -/
def doTranscribe (env : Env) (fp rid : Option Json) :
    Except String (List Json × Bool) :=
  match osPathExists env fp with
  | Except.error m => Except.error m
  | Except.ok false => Except.ok ([fnfResp rid], false)
  | Except.ok true =>
    match env.transcribe fp with
    | Except.error m => Except.error m
    | Except.ok text => Except.ok ([resultResp text fp rid], false)

/-- Dispatch on `req.get("command")`: only a string value equal to
`transcribe`, `ping` or `exit` selects a branch; any other value (including
an absent key) falls through all branches and emits nothing. -/
def dispatch (env : Env) (fields : List (String × Json)) :
    Except String (List Json × Bool) :=
  match lookupLast fields "command" with
  | some (Json.str c) =>
    if c = "transcribe" then
      doTranscribe env (lookupLast fields "file_path") (lookupLast fields "id")
    else if c = "ping" then Except.ok ([pongResp], false)
    else if c = "exit" then Except.ok ([], true)
    else Except.ok ([], false)
  | _ => Except.ok ([], false)

/-- The body of the per-line `try` block: parse the line as JSON, call
`req.get("command")` (which raises `AttributeError` on a non-dict), and
dispatch. An `Except.error` models an exception reaching the per-line
handler. -/
def tryHandle (env : Env) (line : String) : Except String (List Json × Bool) :=
  match env.parseJson line with
  | Except.error m => Except.error m
  | Except.ok (Json.obj fields) => dispatch env fields
  | Except.ok _ => Except.error attrErrMsg

/-- One iteration of the `for line in sys.stdin` loop: a blank line is
skipped before the `try`; otherwise any exception from the body is caught and
reported as one error response, and the loop continues. Returns the responses
emitted for this line and whether the loop breaks. -/
def handleLine (env : Env) (line : String) : List Json × Bool :=
  if strBlank line then ([], false)
  else
    match tryHandle env line with
    | Except.ok r => r
    | Except.error m => ([errResp m], false)

/-- The read loop over the remaining stdin lines: returns the emitted
responses in order, and the lines left unread when the loop breaks (empty
when stdin is exhausted). -/
def runLoop (env : Env) : List String → List Json × List String
  | [] => ([], [])
  | line :: rest =>
    if (handleLine env line).2 then ((handleLine env line).1, rest)
    else ((handleLine env line).1 ++ (runLoop env rest).1, (runLoop env rest).2)

/-- Server startup: whether the heavy NeMo/Torch imports succeed, and the
result of constructing the service (the chosen device string, or the message
of a raised exception). -/
structure Startup where
  importsOk : Bool
  init : Except String String

/-- Server mode: on import failure print one error line and exit; on a
startup exception print one fatal line; otherwise print the ready status and
run the read loop. The output is the full list of JSON lines emitted on
stdout. -/
def run_server (st : Startup) (env : Env) (lines : List String) : List Json :=
  if st.importsOk then
    match st.init with
    | Except.ok dev => readyResp dev :: (runLoop env lines).1
    | Except.error m => [fatalResp m]
  else [importErrResp]

/-- Outcome of the GPU probe performed by check-gpu mode: the torch import
may raise `ImportError`, any step may raise another exception, or the probe
reports availability (with the device name exactly when available). -/
inductive GpuProbe where
  | importError
  | otherError (msg : String)
  | notAvailable
  | available (deviceName : String)

/-- The check-gpu mode: always emits exactly one JSON object; every failure
is caught and reported as an `error` field. -/
def check_gpu (p : GpuProbe) : List Json :=
  match p with
  | GpuProbe.importError =>
    [Json.obj [("available", Json.bool false), ("error", Json.str "torch not installed")]]
  | GpuProbe.otherError m =>
    [Json.obj [("available", Json.bool false), ("error", Json.str m)]]
  | GpuProbe.notAvailable =>
    [Json.obj [("available", Json.bool false), ("device", Json.null)]]
  | GpuProbe.available n =>
    [Json.obj [("available", Json.bool true), ("device", Json.str n)]]

/-- The external collaborators of download mode: the hub-library import
(inside the `try`, so its failure is caught) and the `snapshot_download`
routine, which returns the downloaded path or raises. -/
structure DlEnv where
  importSnapshot : Except String Unit
  snapshot_download : String → Except String String

/-- Status line `{"status": "starting", "model": name}`. -/
def dlStarting (name : String) : Json :=
  Json.obj [("status", Json.str "starting"), ("model", Json.str name)]

/-- Status line `{"status": "complete", "path": p}`. -/
def dlComplete (p : String) : Json :=
  Json.obj [("status", Json.str "complete"), ("path", Json.str p)]

/-- Status line `{"status": "error", "message": m}`. -/
def dlErr (m : String) : Json :=
  Json.obj [("status", Json.str "error"), ("message", Json.str m)]

/-- The download mode: import the hub library (inside the `try`), emit the
starting line, fetch, and emit completion; any exception is caught and
reported as one error line. -/
def download_model (env : DlEnv) (model_name : String) : List Json :=
  match env.importSnapshot with
  | Except.error m => [dlErr m]
  | Except.ok _ =>
    dlStarting model_name ::
      match env.snapshot_download model_name with
      | Except.ok p => [dlComplete p]
      | Except.error m => [dlErr m]

/-- A concrete collaborator environment used to evaluate the embedding on
specific inputs: a small parse table of input lines, a filesystem on which
only `/a.wav` and `/c.wav` exist, and a model that fails on `/c.wav`. -/
def envA : Env where
  parseJson := fun s =>
    if s = "PING" then Except.ok (Json.obj [("command", Json.str "ping")])
    else if s = "EXIT" then Except.ok (Json.obj [("command", Json.str "exit")])
    else if s = "NOP" then Except.ok (Json.obj [("hello", Json.str "x")])
    else if s = "NUM" then Except.ok (Json.num 3)
    else if s = "T1" then
      Except.ok (Json.obj [("command", Json.str "transcribe"),
        ("file_path", Json.str "/a.wav"), ("id", Json.num 7)])
    else if s = "T2" then
      Except.ok (Json.obj [("command", Json.str "transcribe"), ("id", Json.num 8)])
    else if s = "T3" then
      Except.ok (Json.obj [("command", Json.str "transcribe"),
        ("file_path", Json.str "/b.wav"), ("id", Json.num 9)])
    else if s = "T4" then
      Except.ok (Json.obj [("command", Json.str "transcribe"),
        ("file_path", Json.str "/c.wav"), ("id", Json.num 10)])
    else Except.error "Expecting value"
  existsPath := fun s => s = "/a.wav" || s = "/c.wav"
  existsFd := fun _ => false
  transcribe := fun fp =>
    match fp with
    | some (Json.str "/c.wav") => Except.error "transcription failed"
    | _ => Except.ok "hello world"

/-- A concrete startup in which the imports succeed and the service comes up
on the cuda device. -/
def stOk : Startup where
  importsOk := true
  init := Except.ok "cuda"

/-- A concrete download environment in which the hub-library import fails. -/
def dlEnvBad : DlEnv where
  importSnapshot := Except.error "No module named huggingface_hub"
  snapshot_download := fun _ => Except.error "unreachable"

/-- A concrete download environment in which the fetch succeeds. -/
def dlEnvOk : DlEnv where
  importSnapshot := Except.ok ()
  snapshot_download := fun _ => Except.ok "/models/m"

/-- The response-type invariant of server mode: the object carries a `type`
field whose value is one of the five response type strings. -/
def TypeOk (o : Json) : Prop :=
  ∃ t, Json.getKey o "type" = some (Json.str t) ∧
    (t = "status" ∨ t = "result" ∨ t = "error" ∨ t = "fatal" ∨ t = "pong")

theorem typeOk_errResp (m : String) : TypeOk (errResp m) :=
  ⟨"error", rfl, by simp⟩

theorem typeOk_fnfResp (rid : Option Json) : TypeOk (fnfResp rid) :=
  ⟨"error", rfl, by simp⟩

theorem typeOk_resultResp (t : String) (fp rid : Option Json) :
    TypeOk (resultResp t fp rid) :=
  ⟨"result", rfl, by simp⟩

theorem typeOk_pongResp : TypeOk pongResp :=
  ⟨"pong", rfl, by simp⟩

theorem typeOk_readyResp (dev : String) : TypeOk (readyResp dev) :=
  ⟨"status", rfl, by simp⟩

theorem typeOk_fatalResp (m : String) : TypeOk (fatalResp m) :=
  ⟨"fatal", rfl, by simp⟩

theorem typeOk_importErrResp : TypeOk importErrResp :=
  ⟨"error", rfl, by simp⟩

/-- Exhaustive shape of a per-line handler result that did not raise: either
nothing is emitted (unknown command, or exit, which also breaks), or exactly
one of the pong / file-not-found / result responses. -/
theorem tryHandle_ok_shape (env : Env) (line : String) (r : List Json × Bool)
    (h : tryHandle env line = Except.ok r) :
    r = ([], false) ∨ r = ([], true) ∨ r = ([pongResp], false) ∨
    (∃ rid, r = ([fnfResp rid], false)) ∨
    (∃ text fp rid, r = ([resultResp text fp rid], false)) := by
  unfold tryHandle dispatch doTranscribe at h
  repeat' split at h
  all_goals first
    | exact Except.noConfusion h
    | (injection h with h; subst h; aesop)

/-- The only non-raising handler outcome that breaks the loop is the exit
command of a successfully parsed JSON object. -/
theorem tryHandle_break (env : Env) (line : String) (r : List Json × Bool)
    (h : tryHandle env line = Except.ok r) (hb : r.2 = true) :
    ∃ fields, env.parseJson line = Except.ok (Json.obj fields) ∧
      lookupLast fields "command" = some (Json.str "exit") := by
  unfold tryHandle at h
  split at h
  · exact Except.noConfusion h
  case _ fields heq =>
    refine ⟨fields, heq, ?_⟩
    unfold dispatch doTranscribe at h
    repeat' split at h
    all_goals first
      | exact Except.noConfusion h
      | (injection h with h; subst h; simp_all)
  case _ j hj hne => exact Except.noConfusion h

/-- Every response emitted for a single line satisfies the type-field
invariant. -/
theorem handleLine_typeOk (env : Env) (line : String) :
    ∀ o ∈ (handleLine env line).1, TypeOk o := by
  intro o ho
  unfold handleLine at ho
  split at ho
  · simp at ho
  · split at ho
    case _ r hr =>
      rcases tryHandle_ok_shape env line r hr with h | h | h | ⟨rid, h⟩ | ⟨t, fp, rid, h⟩ <;>
        subst h <;> simp at ho
      · subst ho; exact typeOk_pongResp
      · subst ho; exact typeOk_fnfResp rid
      · subst ho; exact typeOk_resultResp t fp rid
    case _ m hm =>
      simp at ho; subst ho; exact typeOk_errResp m

/-- A single line never emits more than one response. -/
theorem handleLine_length_le_one (env : Env) (line : String) :
    (handleLine env line).1.length ≤ 1 := by
  unfold handleLine
  split
  · simp
  · split
    case _ r hr =>
      rcases tryHandle_ok_shape env line r hr with h | h | h | ⟨rid, h⟩ | ⟨t, fp, rid, h⟩ <;>
        subst h <;> simp
    case _ m hm => simp

/-- The loop breaks on a line only when that line parsed to a JSON object
whose command field is the string exit. -/
theorem handleLine_break_cmd (env : Env) (line : String)
    (hb : (handleLine env line).2 = true) :
    ∃ fields, env.parseJson line = Except.ok (Json.obj fields) ∧
      lookupLast fields "command" = some (Json.str "exit") := by
  unfold handleLine at hb
  split at hb
  · simp at hb
  · split at hb
    case _ r hr => exact tryHandle_break env line r hr hb
    case _ m hm => simp at hb

/-- Every response emitted by the read loop satisfies the type-field
invariant. -/
theorem runLoop_typeOk (env : Env) (lines : List String) :
    ∀ o ∈ (runLoop env lines).1, TypeOk o := by
  induction lines with
  | nil => intro o ho; simp [runLoop] at ho
  | cons line rest ih =>
    intro o ho
    unfold runLoop at ho
    split at ho
    · exact handleLine_typeOk env line o ho
    · simp only [List.mem_append] at ho
      rcases ho with ho | ho
      · exact handleLine_typeOk env line o ho
      · exact ih o ho

/-- Unfolding of the read loop on a nonempty input stream. -/
theorem runLoop_cons (env : Env) (line : String) (rest : List String) :
    runLoop env (line :: rest) =
      if (handleLine env line).2 then ((handleLine env line).1, rest)
      else ((handleLine env line).1 ++ (runLoop env rest).1, (runLoop env rest).2) := by
  rfl

theorem handleLine_parsed (env : Env) (line : String) (fields : List (String × Json))
    (h0 : strBlank line = false)
    (h1 : env.parseJson line = Except.ok (Json.obj fields)) :
    handleLine env line =
      match dispatch env fields with
      | Except.ok r => r
      | Except.error m => ([errResp m], false) := by
  unfold handleLine tryHandle
  simp only [h0, h1, Bool.false_eq_true, if_false]

theorem dispatch_ping (env : Env) (fields : List (String × Json))
    (h : lookupLast fields "command" = some (Json.str "ping")) :
    dispatch env fields = Except.ok ([pongResp], false) := by
  unfold dispatch
  simp only [h]
  simp

theorem dispatch_quit (env : Env) (fields : List (String × Json))
    (h : lookupLast fields "command" = some (Json.str "exit")) :
    dispatch env fields = Except.ok ([], true) := by
  unfold dispatch
  simp only [h]
  simp

theorem dispatch_transcribe (env : Env) (fields : List (String × Json))
    (h : lookupLast fields "command" = some (Json.str "transcribe")) :
    dispatch env fields =
      doTranscribe env (lookupLast fields "file_path") (lookupLast fields "id") := by
  unfold dispatch
  simp only [h]
  simp

/-- C1 (amended): after the ready status, every line read from standard input
produces at most one JSON response line, and that response is emitted before
any response of a later line; blank lines, lines whose command is absent or
unrecognized, and the exit command produce none. -/
theorem c1_at_most_one_response (env : Env) (line : String) (rest : List String) :
    (handleLine env line).1.length ≤ 1 ∧
    (runLoop env (line :: rest)).1 =
      (handleLine env line).1 ++
        (if (handleLine env line).2 then [] else (runLoop env rest).1) := by
  refine ⟨handleLine_length_le_one env line, ?_⟩
  rw [runLoop_cons]
  rcases Bool.eq_false_or_eq_true (handleLine env line).2 with hb | hb <;> simp [hb]

/-- C1 counterexample: a fully read line (a JSON object with no recognized
command) produces zero responses, refuting that every read line produces
exactly one response: after the ready status, the server emits nothing for
the NOP line even though the line was consumed. -/
theorem c1_line_with_no_response :
    run_server stOk envA ["NOP"] = [readyResp "cuda"] ∧
    runLoop envA ["NOP"] = ([], []) :=
  ⟨rfl, rfl⟩

/-- C2 (amended): for a transcribe request whose file_path is a string naming
a non-existing file, the server emits the file-not-found error response
carrying the request id, never consults the transcription model (the
conclusion holds for every transcription oracle tr), and continues the loop;
for a transcribe request whose file_path field is absent, the existence check
raises TypeError and the generic handler emits an error response without the
id, still never consulting the model, and the loop continues. -/
theorem c2_transcribe_path_handling (pj : String → Except String Json)
    (ep : String → Bool) (efd : Int → Bool)
    (tr : Option Json → Except String String)
    (line : String) (fields : List (String × Json)) (rest : List String)
    (h0 : strBlank line = false)
    (h1 : pj line = Except.ok (Json.obj fields))
    (h2 : lookupLast fields "command" = some (Json.str "transcribe")) :
    (∀ s, lookupLast fields "file_path" = some (Json.str s) → ep s = false →
      runLoop (Env.mk pj ep efd tr) (line :: rest) =
        (fnfResp (lookupLast fields "id") :: (runLoop (Env.mk pj ep efd tr) rest).1,
         (runLoop (Env.mk pj ep efd tr) rest).2)) ∧
    (lookupLast fields "file_path" = none →
      runLoop (Env.mk pj ep efd tr) (line :: rest) =
        (errResp osPathTypeErr :: (runLoop (Env.mk pj ep efd tr) rest).1,
         (runLoop (Env.mk pj ep efd tr) rest).2)) ∧
    Json.hasKey (fnfResp (lookupLast fields "id")) "id" = true ∧
    Json.hasKey (errResp osPathTypeErr) "id" = false := by
  refine ⟨?_, ?_, rfl, rfl⟩
  · intro s hs hex
    have hl : handleLine (Env.mk pj ep efd tr) line =
        ([fnfResp (lookupLast fields "id")], false) := by
      rw [handleLine_parsed _ line fields h0 h1, dispatch_transcribe _ fields h2]
      simp [doTranscribe, hs, osPathExists, hex]
    rw [runLoop_cons, hl]; simp
  · intro hs
    have hl : handleLine (Env.mk pj ep efd tr) line =
        ([errResp osPathTypeErr], false) := by
      rw [handleLine_parsed _ line fields h0 h1, dispatch_transcribe _ fields h2]
      simp [doTranscribe, hs, osPathExists]
    rw [runLoop_cons, hl]; simp

/-- C2 counterexample: the transcribe request T2 has no file_path field (the
path is missing), and the error response the server emits for it does not
carry the request id, refuting that a missing file path yields an error
response carrying the id. -/
theorem c2_missing_path_error_lacks_id :
    runLoop envA ["T2"] = ([errResp osPathTypeErr], []) ∧
    Json.hasKey (errResp osPathTypeErr) "id" = false :=
  ⟨rfl, rfl⟩

/-- C2 witness: the amended theorem evaluated at a non-existing path (T3)
and at a missing file_path field (T2). -/
theorem c2_transcribe_path_handling_w :
    runLoop envA ["T3"] = ([fnfResp (some (Json.num 9))], []) ∧
    runLoop envA ["T2"] = ([errResp osPathTypeErr], []) := by
  constructor
  · exact (c2_transcribe_path_handling envA.parseJson envA.existsPath envA.existsFd
      envA.transcribe "T3"
      [("command", Json.str "transcribe"), ("file_path", Json.str "/b.wav"),
       ("id", Json.num 9)] [] rfl rfl rfl).1 "/b.wav" rfl rfl
  · exact ((c2_transcribe_path_handling envA.parseJson envA.existsPath envA.existsFd
      envA.transcribe "T2"
      [("command", Json.str "transcribe"), ("id", Json.num 8)] [] rfl rfl rfl).2).1 rfl

/-- C3: a non-blank line whose handling raises (malformed JSON, a non-dict
JSON value, a TypeError from the existence check, or a model failure) yields
exactly one error response and the loop continues with the remaining lines;
and the loop breaks on a line only when that line is an exit command. -/
theorem c3_per_line_exception_reported (env : Env) (line : String) (msg : String)
    (rest : List String)
    (h0 : strBlank line = false)
    (h1 : tryHandle env line = Except.error msg) :
    runLoop env (line :: rest) =
      (errResp msg :: (runLoop env rest).1, (runLoop env rest).2) ∧
    ∀ l, (handleLine env l).2 = true →
      ∃ fields, env.parseJson l = Except.ok (Json.obj fields) ∧
        lookupLast fields "command" = some (Json.str "exit") := by
  constructor
  · have hl : handleLine env line = ([errResp msg], false) := by
      unfold handleLine; simp [h0, h1]
    rw [runLoop_cons, hl]; simp
  · exact fun l => handleLine_break_cmd env l

/-- C3 witness: a malformed line is reported as one error response and the
following ping is still processed. -/
theorem c3_per_line_exception_reported_w :
    runLoop envA ["BAD", "PING"] = ([errResp "Expecting value", pongResp], []) := by
  have h := (c3_per_line_exception_reported envA "BAD" "Expecting value" ["PING"] rfl rfl).1
  exact h

/-- C4: check-gpu mode always emits exactly one JSON object and never raises:
the object always reports availability, and it carries either an error field
(with availability false) or a device field and no error field. -/
theorem c4_check_gpu_single_object (p : GpuProbe) :
    (check_gpu p).length = 1 ∧
    ∀ o ∈ check_gpu p,
      Json.hasKey o "available" = true ∧
      ((Json.hasKey o "error" = true ∧ Json.getKey o "available" = some (Json.bool false)) ∨
       (Json.hasKey o "device" = true ∧ Json.hasKey o "error" = false)) := by
  cases p <;> refine ⟨rfl, ?_⟩ <;> intro o ho <;> simp [check_gpu] at ho <;> subst ho
  · exact ⟨rfl, Or.inl ⟨rfl, rfl⟩⟩
  · exact ⟨rfl, Or.inl ⟨rfl, rfl⟩⟩
  · exact ⟨rfl, Or.inr ⟨rfl, rfl⟩⟩
  · exact ⟨rfl, Or.inr ⟨rfl, rfl⟩⟩

/-- C4 witness: the probe outcome in which the GPU library is absent, whose
emitted object reports availability false and an error field. -/
theorem c4_check_gpu_single_object_w :
    Json.hasKey (Json.obj [("available", Json.bool false),
      ("error", Json.str "torch not installed")]) "available" = true ∧
    ((Json.hasKey (Json.obj [("available", Json.bool false),
        ("error", Json.str "torch not installed")]) "error" = true ∧
      Json.getKey (Json.obj [("available", Json.bool false),
        ("error", Json.str "torch not installed")]) "available" = some (Json.bool false)) ∨
     (Json.hasKey (Json.obj [("available", Json.bool false),
        ("error", Json.str "torch not installed")]) "device" = true ∧
      Json.hasKey (Json.obj [("available", Json.bool false),
        ("error", Json.str "torch not installed")]) "error" = false)) :=
  (c4_check_gpu_single_object GpuProbe.importError).2 _ (by simp [check_gpu])

/-- C5 (amended): if the hub-library import fails, download mode emits only
an error status line carrying the message (no starting line); otherwise it
first emits the starting line naming the model, then the complete line with
the downloaded path if the fetch succeeds, or the error line with the message
if the fetch raises; no exception propagates. -/
theorem c5_download_status_lines (env : DlEnv) (name : String) :
    (∀ m, env.importSnapshot = Except.error m → download_model env name = [dlErr m]) ∧
    (env.importSnapshot = Except.ok () →
      (download_model env name).head? = some (dlStarting name) ∧
      (∀ p, env.snapshot_download name = Except.ok p →
        download_model env name = [dlStarting name, dlComplete p]) ∧
      (∀ m, env.snapshot_download name = Except.error m →
        download_model env name = [dlStarting name, dlErr m])) := by
  constructor
  · intro m hm; unfold download_model; simp [hm]
  · intro hok
    refine ⟨?_, ?_, ?_⟩
    · unfold download_model; simp [hok]
    · intro p hp; unfold download_model; simp [hok, hp]
    · intro m hm; unfold download_model; simp [hok, hm]

/-- C5 counterexample: when the hub-library import fails (the import sits
inside the try block), the only line emitted is the error status line; no
starting status line naming the model is emitted first, refuting that
download mode always first emits a starting line. -/
theorem c5_import_failure_skips_starting :
    download_model dlEnvBad "nvidia/nemotron-speech-streaming-en-0.6b" =
      [dlErr "No module named huggingface_hub"] ∧
    Json.getKey (dlErr "No module named huggingface_hub") "status" =
      some (Json.str "error") ∧
    Json.hasKey (dlErr "No module named huggingface_hub") "model" = false :=
  ⟨rfl, rfl, rfl⟩

/-- C5 witness: the amended theorem evaluated on a successful download. -/
theorem c5_download_status_lines_w :
    download_model dlEnvOk "m" = [dlStarting "m", dlComplete "/models/m"] :=
  ((c5_download_status_lines dlEnvOk "m").2 rfl).2.1 "/models/m" rfl

/-- C6: every JSON object emitted on standard output by server mode carries a
type field whose value is one of status, result, error, fatal or pong. -/
theorem c6_response_type_field (st : Startup) (env : Env) (lines : List String) :
    ∀ o ∈ run_server st env lines, TypeOk o := by
  intro o ho
  unfold run_server at ho
  split at ho
  · split at ho
    case _ dev hd =>
      simp only [List.mem_cons] at ho
      rcases ho with ho | ho
      · subst ho; exact typeOk_readyResp dev
      · exact runLoop_typeOk env lines o ho
    case _ m hm =>
      simp at ho; subst ho; exact typeOk_fatalResp m
  · simp at ho; subst ho; exact typeOk_importErrResp

/-- C6 witness: the pong response emitted in a concrete server run carries an
admissible type field. -/
theorem c6_response_type_field_w : TypeOk pongResp := by
  have hm : pongResp ∈ run_server stOk envA ["PING"] := by
    have h : run_server stOk envA ["PING"] = [readyResp "cuda", pongResp] := rfl
    rw [h]
    exact List.mem_cons_of_mem _ (List.mem_cons_self _ _)
  exact c6_response_type_field stOk envA ["PING"] pongResp hm

/-- C7: a parsed request whose command field is exit terminates the read
loop: nothing is emitted for it and the remaining lines are left unread. -/
theorem c7_exit_breaks_loop (env : Env) (line : String)
    (fields : List (String × Json)) (rest : List String)
    (h0 : strBlank line = false)
    (h1 : env.parseJson line = Except.ok (Json.obj fields))
    (h2 : lookupLast fields "command" = some (Json.str "exit")) :
    runLoop env (line :: rest) = ([], rest) := by
  have hl : handleLine env line = ([], true) := by
    rw [handleLine_parsed env line fields h0 h1, dispatch_quit env fields h2]
  rw [runLoop_cons, hl]; simp

/-- C7 witness: an exit command leaves the following ping unread. -/
theorem c7_exit_breaks_loop_w : runLoop envA ["EXIT", "PING"] = ([], ["PING"]) :=
  c7_exit_breaks_loop envA "EXIT" [("command", Json.str "exit")] ["PING"] rfl rfl rfl

/-- C8: a parsed request whose command field is ping yields exactly one pong
response and the loop continues with the remaining lines. -/
theorem c8_ping_yields_pong (env : Env) (line : String)
    (fields : List (String × Json)) (rest : List String)
    (h0 : strBlank line = false)
    (h1 : env.parseJson line = Except.ok (Json.obj fields))
    (h2 : lookupLast fields "command" = some (Json.str "ping")) :
    runLoop env (line :: rest) =
      (pongResp :: (runLoop env rest).1, (runLoop env rest).2) := by
  have hl : handleLine env line = ([pongResp], false) := by
    rw [handleLine_parsed env line fields h0 h1, dispatch_ping env fields h2]
  rw [runLoop_cons, hl]; simp

/-- C8 witness: a concrete ping yields exactly one pong. -/
theorem c8_ping_yields_pong_w : runLoop envA ["PING"] = ([pongResp], []) :=
  c8_ping_yields_pong envA "PING" [("command", Json.str "ping")] [] rfl rfl rfl

/-- C9: a blank or whitespace-only line, and a parsed JSON object whose
command field is absent or not one of the strings transcribe, ping or exit,
produce no response at all: the loop output and leftover are those of the
remaining lines. -/
theorem c9_unrecognized_silent (env : Env) (line : String) (rest : List String)
    (h : strBlank line = true ∨
      ∃ fields, env.parseJson line = Except.ok (Json.obj fields) ∧
        ∀ s, lookupLast fields "command" = some (Json.str s) →
          s ≠ "transcribe" ∧ s ≠ "ping" ∧ s ≠ "exit") :
    runLoop env (line :: rest) = runLoop env rest := by
  have hl : handleLine env line = ([], false) := by
    rcases h with hb | ⟨fields, h1, h2⟩
    · unfold handleLine; simp [hb]
    · have hd : dispatch env fields = Except.ok ([], false) := by
        unfold dispatch
        cases hc : lookupLast fields "command" with
        | none => simp
        | some j =>
          cases j
          case str s =>
            rcases h2 s hc with ⟨hs1, hs2, hs3⟩
            simp [hs1, hs2, hs3]
          all_goals simp
      rcases Bool.eq_false_or_eq_true (strBlank line) with hb | hb
      · unfold handleLine
        simp [hb]
      · rw [handleLine_parsed env line fields hb h1, hd]
  rw [runLoop_cons, hl]; simp

/-- C9 witness: a parsed object with no command field produces no response
and the loop moves on. -/
theorem c9_unrecognized_silent_w : runLoop envA ["NOP"] = ([], []) := by
  have h := c9_unrecognized_silent envA "NOP" []
    (Or.inr ⟨[("hello", Json.str "x")], rfl, by intro s hs; cases hs⟩)
  exact h

/-- C10: an error response issued by the per-line exception handler carries
only the type and message fields and no id; and every error response emitted
for a line that does carry an id is the explicit file-not-found response. -/
theorem c10_error_id_discipline (env : Env) (line : String) (msg : String) :
    (strBlank line = false → tryHandle env line = Except.error msg →
      (handleLine env line).1 = [errResp msg] ∧
      Json.hasKey (errResp msg) "id" = false) ∧
    (∀ o ∈ (handleLine env line).1,
      Json.getKey o "type" = some (Json.str "error") →
      Json.hasKey o "id" = true →
      Json.getKey o "message" = some (Json.str "File not found")) := by
  constructor
  · intro h0 h1
    refine ⟨?_, rfl⟩
    unfold handleLine
    simp [h0, h1]
  · intro o ho hty hid
    unfold handleLine at ho
    split at ho
    · simp at ho
    · split at ho
      case _ r hr =>
        rcases tryHandle_ok_shape env line r hr with h | h | h | ⟨rid, h⟩ | ⟨t, fp, rid, h⟩ <;>
          subst h <;> simp at ho
        · subst ho
          have hp : Json.getKey pongResp "type" = some (Json.str "pong") := rfl
          rw [hp] at hty
          simp at hty
        · subst ho; rfl
        · subst ho
          have hp : Json.getKey (resultResp t fp rid) "type" = some (Json.str "result") := rfl
          rw [hp] at hty
          simp at hty
      case _ m hm =>
        simp at ho; subst ho
        have hp : Json.hasKey (errResp m) "id" = false := rfl
        rw [hp] at hid
        exact absurd hid (by simp)

/-- C10 witness: the handler error for a malformed line carries no id, and
the file-not-found response for a non-existing path is the one error that
carries the id. -/
theorem c10_error_id_discipline_w :
    (handleLine envA "BAD").1 = [errResp "Expecting value"] ∧
    Json.getKey (fnfResp (some (Json.num 9))) "message" =
      some (Json.str "File not found") := by
  constructor
  · exact ((c10_error_id_discipline envA "BAD" "Expecting value").1 rfl rfl).1
  · refine (c10_error_id_discipline envA "T3" "x").2 (fnfResp (some (Json.num 9))) ?_ rfl rfl
    have h : (handleLine envA "T3").1 = [fnfResp (some (Json.num 9))] := rfl
    rw [h]
    exact List.mem_cons_self _ _
